import Mathlib

/-!
Shallow embedding of the storage-api service (routes/upload.py,
services/s3_service.py, utils/validators.py, models/file_models.py)
and proofs about its validation pipeline, upload/status/list routes and
presigned-URL issuance.
-/

namespace StorageApi

/-- Byte strings are modelled as lists of naturals (one per byte). -/
abbrev ByteSeq := List Nat

/-- Whitespace characters stripped by Python str.strip (ASCII subset). -/
def pyIsSpace (c : Char) : Bool :=
  c = ' ' || c = '\t' || c = '\n' || c = '\r' || c = '\x0b' || c = '\x0c'

/-- Python str.strip: drop leading and trailing whitespace. -/
def pyStrip (s : String) : String :=
  String.mk (((s.toList.dropWhile pyIsSpace).reverse.dropWhile pyIsSpace).reverse)

/-- A list occurs contiguously inside another list. -/
def listOccursIn (needle : List Char) : List Char → Bool
  | [] => needle.isEmpty
  | c :: t => needle.isPrefixOf (c :: t) || listOccursIn needle t

/-- Python substring containment (the in operator on str). -/
def containsSub (needle s : String) : Bool :=
  listOccursIn needle.toList s.toList

/-- Exceptions raised by the service layer: FileValidationError and
StorageServiceError from utils/exceptions.py, carrying their message. -/
inductive ApiErr where
  | fileValidation (msg : String)
  | storageService (msg : String)
  deriving DecidableEq, Repr

/-- Message carried by an exception. -/
def ApiErr.msg : ApiErr → String
  | .fileValidation m => m
  | .storageService m => m

/-- The dangerous_chars list of validators.validate_filename. -/
def dangerous_chars : List String :=
  ["/", "\\", "..", "<", ">", ":", "\x22", "|", "?", "*"]

/-- validators.validate_filename: reject empty/whitespace-only names, names
containing a dangerous character sequence, and names over 255 characters;
return the stripped name otherwise. -/
def validate_filename (filename : String) : Except ApiErr String :=
  if filename = "" ∨ pyStrip filename = "" then
    .error (.fileValidation "Filename cannot be empty")
  else
    let sanitized := pyStrip filename
    match dangerous_chars.find? (fun c => containsSub c sanitized) with
    | some c =>
        .error (.fileValidation
          ("Filename contains invalid character: \x27" ++ c ++ "\x27"))
    | none =>
        if sanitized.length > 255 then
          .error (.fileValidation "Filename too long (maximum 255 characters)")
        else
          .ok sanitized

/-- validators.validate_file_size: sizes must be positive and at most
max_size_mb * 1024 * 1024 bytes. -/
def validate_file_size (file_size : Int) (max_size_mb : Int) : Except ApiErr Unit :=
  if file_size ≤ 0 then
    .error (.fileValidation "File size must be greater than 0")
  else
    let max_size_bytes := max_size_mb * 1024 * 1024
    if file_size > max_size_bytes then
      .error (.fileValidation
        ("File size (" ++ toString file_size ++
         " bytes) exceeds maximum allowed size (" ++ toString max_size_bytes ++ " bytes)"))
    else
      .ok ()

/-- External, deterministic collaborators of the service, abstracted as
oracle functions: the mimetypes.guess_type table, libmagic content sniffing
(none models both no-answer and a raised exception, which the source
swallows), ISO-8601 timestamp formatting/parsing from datetime, and the
presigned-URL signing calls. The two presign fields are modelled from the
spec: generate_presigned_download_url and generate_presigned_upload_url are
called on the storage service by routes/upload.py but their definitions are
not part of the sources; per the spec they return a bare signed URL, resp.
a URL plus an opaque form-field map, and the route treats both as opaque. -/
structure Ext where
  guessType : String → Option String
  sniff : ByteSeq → Option String
  parseIso : String → Option Int
  isoFormat : Int → String
  presignGet : String → String → Int → String
  presignPost : String → String → String → Int → String × List (String × String)

/-- MIME resolution used by validators.validate_file_type: extension-derived
type first, then content sniffing when a non-empty buffer is supplied. -/
def resolveMime (ext : Ext) (filename : String) (file_content : Option ByteSeq) :
    Option String :=
  match ext.guessType filename with
  | some m => some m
  | none =>
      match file_content with
      | some bs => if bs ≠ [] then ext.sniff bs else none
      | none => none

/-- validators.validate_file_type: resolve a MIME type and require exact
membership in the allow-list. -/
def validate_file_type (ext : Ext) (filename : String) (allowed_types : List String)
    (file_content : Option ByteSeq) : Except ApiErr String :=
  if filename = "" then
    .error (.fileValidation "Filename cannot be empty")
  else
    match resolveMime ext filename file_content with
    | none =>
        .error (.fileValidation
          ("Could not determine file type for \x27" ++ filename ++ "\x27"))
    | some m =>
        if m ∉ allowed_types then
          .error (.fileValidation
            ("File type \x27" ++ m ++ "\x27 is not allowed. Allowed types: " ++
             String.intercalate ", " allowed_types))
        else
          .ok m

/-- Application settings from config.Settings (the fields the upload routes
consult). allowed_file_types is the comma-separated allow-list string. -/
structure Settings where
  max_file_size_mb : Int
  allowed_file_types : String
  upload_path : String

/-- One object stored in the bucket, as the S3 calls of the service see it:
its key, body bytes, content type, string metadata map, storage class, and
last-modified time. -/
structure StoredObject where
  key : String
  body : ByteSeq
  contentType : String
  metadata : List (String × String)
  storageClass : Option String
  lastModified : Int
  deriving DecidableEq, Repr

/-- The bucket contents. -/
structure S3State where
  objects : List StoredObject
  deriving DecidableEq, Repr

/-- Result of one boto3 S3 call: either a value or a ClientError carrying
the backend error code and message. -/
inductive S3Resp (α : Type) where
  | ok (val : α)
  | clientError (code msg : String)
  deriving Repr

/-- The two S3 calls the status/list paths issue, as a record so that
failing backends can be analysed alongside the honest, state-backed one.
listV2 takes the key filter string and an optional MaxKeys cap. -/
structure Backend where
  listV2 : String → Option Int → S3Resp (List StoredObject)
  headObject : String → S3Resp StoredObject

/-- String starts-with, the key filtering rule of list_objects_v2. -/
def strStartsWith (s pat : String) : Bool :=
  pat.toList.isPrefixOf s.toList

/-- The honest backend over a bucket state: listV2 returns the key-filtered
(and capped) objects, headObject finds the object with the exact key. -/
def S3State.backend (st : S3State) : Backend where
  listV2 := fun pat mk =>
    let all := st.objects.filter (fun o => strStartsWith o.key pat)
    .ok (match mk with
         | none => all
         | some k => all.take k.toNat)
  headObject := fun k =>
    match st.objects.find? (fun o => o.key = k) with
    | some o => .ok o
    | none => .clientError "404" "Not Found"

/-- Python str.rstrip of a single character. -/
def pyRstripSlash (p : String) : String :=
  String.mk ((p.toList.reverse.dropWhile (fun c => c = '/')).reverse)

/-- The configuration of an S3Service instance (s3_service.S3Service
attributes used by the modelled operations). -/
structure S3Service where
  bucket_name : String
  region_name : String
  upload_path : String

/-- S3Service construction normalizes the upload path with
rstrip slash plus a trailing slash. -/
def S3Service.init (bucket region uploadPathArg : String) : S3Service :=
  { bucket_name := bucket, region_name := region
  , upload_path := pyRstripSlash uploadPathArg ++ "/" }

/-- The virtual-hosted storage URL the service derives for a key. -/
def S3Service.storageUrl (svc : S3Service) (key : String) : String :=
  "https://" ++ svc.bucket_name ++ ".s3." ++ svc.region_name ++
    ".amazonaws.com/" ++ key

/-- models.FileUploadResponse. -/
structure FileUploadResponse where
  file_id : String
  filename : String
  file_size : Int
  file_type : String
  storage_url : String
  uploaded_at : Int
  deriving DecidableEq, Repr

/-- models.MultipleFileUploadResponse. -/
structure MultipleFileUploadResponse where
  uploaded_files : List FileUploadResponse
  total_files : Int
  total_size : Int
  deriving DecidableEq, Repr

/-- models.FileStatusResponse: note it has exactly these five fields. -/
structure FileStatusResponse where
  file_id : String
  filename : String
  status : String
  storage_url : Option String
  uploaded_at : Option Int
  deriving DecidableEq, Repr

/-- A value of the JSON serialization of a response model. -/
inductive JsonVal where
  | str (v : String)
  | int (v : Int)
  | nullVal
  deriving DecidableEq, Repr

/-- FileStatusResponse.dict(): the serialized field map the status route
puts into its envelope. -/
def FileStatusResponse.toDict (r : FileStatusResponse) : List (String × JsonVal) :=
  [ ("file_id", .str r.file_id)
  , ("filename", .str r.filename)
  , ("status", .str r.status)
  , ("storage_url", match r.storage_url with | some u => .str u | none => .nullVal)
  , ("uploaded_at", match r.uploaded_at with | some t => .int t | none => .nullVal) ]

/-- models.PresignedDownloadResponse. -/
structure PresignedDownloadResponse where
  file_id : String
  filename : String
  download_url : String
  expires_in : Int
  expires_at : Int
  deriving DecidableEq, Repr

/-- models.PresignedUploadResponse. -/
structure PresignedUploadResponse where
  file_id : String
  filename : String
  upload_url : String
  upload_fields : List (String × String)
  expires_in : Int
  expires_at : Int
  deriving DecidableEq, Repr

/-- S3Service.upload_file: put the object under
upload_path ++ file_id ++ "/" ++ filename with the metadata triple, and
return the FileUploadResponse; putOk models whether the put_object call
raises a ClientError, which the source converts to StorageServiceError. -/
def S3Service.upload_file (svc : S3Service) (ext : Ext) (st : S3State)
    (file_content : ByteSeq) (filename content_type : String) (file_id : String)
    (now : Int) (putOk : Bool) : Except ApiErr (FileUploadResponse × S3State) :=
  let s3_key := svc.upload_path ++ file_id ++ "/" ++ filename
  if putOk then
    let obj : StoredObject :=
      { key := s3_key
      , body := file_content
      , contentType := content_type
      , metadata := [ ("file_id", file_id)
                    , ("original_filename", filename)
                    , ("uploaded_at", ext.isoFormat now) ]
      , storageClass := none
      , lastModified := now }
    .ok ( { file_id := file_id
          , filename := filename
          , file_size := (file_content.length : Int)
          , file_type := content_type
          , storage_url := svc.storageUrl s3_key
          , uploaded_at := now }
        , { objects := st.objects ++ [obj] } )
  else
    .error (.storageService "Failed to upload file to S3")

/-- Python str.replace of Z by the +00:00 offset, applied before
datetime.fromisoformat. -/
def replaceZ (s : String) : String :=
  String.mk (s.toList.foldr
    (fun c acc =>
      if c = 'Z' then '+' :: '0' :: '0' :: ':' :: '0' :: '0' :: acc
      else c :: acc) [])

/-- S3Service.get_file_status: list the identity key filter, head the first
object, read filename and timestamp from metadata with last-modified
fallback. A raised not-found StorageServiceError inside the try block is
re-caught by the generic handler of the source and re-wrapped, which the
first ok-but-empty branch reproduces. -/
def S3Service.get_file_status (svc : S3Service) (ext : Ext) (b : Backend)
    (file_id : String) : Except ApiErr FileStatusResponse :=
  match b.listV2 (svc.upload_path ++ file_id ++ "/") none with
  | .clientError code msg =>
      if code = "NoSuchKey" then
        .error (.storageService ("File with ID " ++ file_id ++ " not found"))
      else
        .error (.storageService ("Failed to get file status: " ++ msg))
  | .ok [] =>
      .error (.storageService
        ("Unexpected error getting file status: File with ID " ++ file_id ++ " not found"))
  | .ok (obj :: _) =>
      match b.headObject obj.key with
      | .clientError code msg =>
          if code = "NoSuchKey" then
            .error (.storageService ("File with ID " ++ file_id ++ " not found"))
          else
            .error (.storageService ("Failed to get file status: " ++ msg))
      | .ok head =>
          let original_filename := (head.metadata.lookup "original_filename").getD "unknown"
          let uploaded_at :=
            match head.metadata.lookup "uploaded_at" with
            | some s =>
                if s ≠ "" then
                  match ext.parseIso (replaceZ s) with
                  | some t => t
                  | none => obj.lastModified
                else obj.lastModified
            | none => obj.lastModified
          .ok { file_id := file_id
              , filename := original_filename
              , status := "uploaded"
              , storage_url := some (svc.storageUrl obj.key)
              , uploaded_at := some uploaded_at }

/-- Metadata enrichment block of one listed file (populated for keys under
the managed upload path when head_object succeeds). -/
structure MetaEnrichment where
  file_id : Option String
  original_filename : Option String
  uploaded_at : Option String
  content_type : Option String
  deriving DecidableEq, Repr

/-- One entry of the list_files result. -/
structure FileInfo where
  key : String
  size : Int
  last_modified : String
  storage_class : String
  url : String
  meta : Option MetaEnrichment
  deriving DecidableEq, Repr

/-- S3Service.list_files: list with the given filter and MaxKeys, build the
per-object info map, and best-effort enrich objects under the upload path
with their metadata (head failures are swallowed). -/
def S3Service.list_files (svc : S3Service) (ext : Ext) (b : Backend)
    (keyFilter : String) (max_keys : Int) : Except ApiErr (List FileInfo) :=
  match b.listV2 keyFilter (some max_keys) with
  | .clientError _ msg =>
      .error (.storageService ("Failed to list files in S3: " ++ msg))
  | .ok contents =>
      .ok (contents.map (fun o =>
        let base : FileInfo :=
          { key := o.key
          , size := (o.body.length : Int)
          , last_modified := ext.isoFormat o.lastModified ++ "Z"
          , storage_class := o.storageClass.getD "STANDARD"
          , url := svc.storageUrl o.key
          , meta := none }
        if strStartsWith o.key svc.upload_path then
          match b.headObject o.key with
          | .ok head =>
              let enr : MetaEnrichment :=
                { file_id := head.metadata.lookup "file_id"
                , original_filename := head.metadata.lookup "original_filename"
                , uploaded_at := head.metadata.lookup "uploaded_at"
                , content_type := some head.contentType }
              { base with meta := some enr }
          | .clientError _ _ => base
        else base))

/-- Outcome of an HTTP handler: a 200 body, or an HTTPException with its
status code and detail string. -/
inductive HttpResult (α : Type) where
  | ok (body : α)
  | httpError (status : Nat) (detail : String)
  deriving Repr

/-- Whether a handler outcome is a 200 success. -/
def HttpResult.isOk {α : Type} : HttpResult α → Bool
  | .ok _ => true
  | .httpError _ _ => false

/-- One multipart file part of an upload request, together with the
per-request environment the handler draws on: the UploadFile filename
(None when the part carries none) and declared part content type, the body
bytes, the uuid4 value minted for this file, and whether the backend
put_object call succeeds. -/
structure UploadFileIn where
  filenameOpt : Option String
  declaredType : Option String
  content : ByteSeq
  fileId : String
  putOk : Bool

/-- Python str.split on a comma over a character list: an empty input
yields one empty field, and every comma starts a new field. -/
def splitCommaList : List Char → List String
  | [] => [""]
  | c :: t =>
    let rest := splitCommaList t
    if c = ',' then "" :: rest
    else
      match rest with
      | [] => [String.mk [c]]
      | h :: t2 => String.mk (c :: h.toList) :: t2

/-- Python str.split(",") as used on the allowed_file_types setting. -/
def pySplitComma (s : String) : List String :=
  splitCommaList s.toList

/-- Python falsy-or: file.filename or the literal unknown. -/
def pyOrUnknown (o : Option String) : String :=
  match o with
  | none => "unknown"
  | some s => if s = "" then "unknown" else s

namespace Routes

/-- Error translation of the single-upload route handler:
FileValidationError becomes 400, StorageServiceError becomes 500. -/
def errTo400or500 {α : Type} (e : ApiErr) : HttpResult α :=
  match e with
  | .fileValidation m => .httpError 400 m
  | .storageService m => .httpError 500 m

/-- routes/upload.upload_single_file: validate filename, type, size in that
order, then upload; validation failures map to 400 and storage failures to
500. The declared part content type is never consulted. -/
def upload_single_file (ext : Ext) (settings : Settings) (svc : S3Service)
    (st : S3State) (f : UploadFileIn) (now : Int) :
    HttpResult (FileUploadResponse × S3State) :=
  match validate_filename (pyOrUnknown f.filenameOpt) with
  | .error e => errTo400or500 e
  | .ok validated_filename =>
    match validate_file_type ext validated_filename
        (pySplitComma settings.allowed_file_types) (some f.content) with
    | .error e => errTo400or500 e
    | .ok content_type =>
      match validate_file_size (f.content.length : Int) settings.max_file_size_mb with
      | .error e => errTo400or500 e
      | .ok _ =>
        match svc.upload_file ext st f.content validated_filename content_type
            f.fileId now f.putOk with
        | .error e => errTo400or500 e
        | .ok res => .ok res

/-- The per-file body of the multi-upload loop: same pipeline as the single
route, but every exception is logged and skipped (None), continuing with
the remaining files. -/
def processFile (ext : Ext) (settings : Settings) (svc : S3Service)
    (st : S3State) (f : UploadFileIn) (now : Int) :
    Option (FileUploadResponse × S3State) :=
  match validate_filename (pyOrUnknown f.filenameOpt) with
  | .error _ => none
  | .ok validated_filename =>
    match validate_file_type ext validated_filename
        (pySplitComma settings.allowed_file_types) (some f.content) with
    | .error _ => none
    | .ok content_type =>
      match validate_file_size (f.content.length : Int) settings.max_file_size_mb with
      | .error _ => none
      | .ok _ =>
        match svc.upload_file ext st f.content validated_filename content_type
            f.fileId now f.putOk with
        | .error _ => none
        | .ok res => some res

/-- The file loop of routes/upload.upload_multiple_files: collect the
successful responses, accumulate total_size from the succeeded files, and
thread the bucket state. -/
def uploadLoop (ext : Ext) (settings : Settings) (svc : S3Service) (now : Int) :
    List UploadFileIn → S3State → List FileUploadResponse × Int × S3State
  | [], st => ([], 0, st)
  | f :: rest, st =>
    match processFile ext settings svc st f now with
    | some (resp, st1) =>
        let out := uploadLoop ext settings svc now rest st1
        (resp :: out.1, (f.content.length : Int) + out.2.1, out.2.2)
    | none => uploadLoop ext settings svc now rest st

/-- routes/upload.upload_multiple_files: run the loop; 400 when nothing
succeeded, otherwise the MultipleFileUploadResponse with counts derived
from the returned set. -/
def upload_multiple_files (ext : Ext) (settings : Settings) (svc : S3Service)
    (st : S3State) (files : List UploadFileIn) (now : Int) :
    HttpResult (MultipleFileUploadResponse × S3State) :=
  let out := uploadLoop ext settings svc now files st
  if out.1 = [] then
    .httpError 400 "No files were successfully uploaded"
  else
    .ok ( { uploaded_files := out.1
          , total_files := (out.1.length : Int)
          , total_size := out.2.1 }
        , out.2.2 )

/-- routes/upload.get_upload_status: 400 on a malformed UUID (uuidOk models
whether UUID(file_id) parses), otherwise call get_file_status and return
its dict; every StorageServiceError is caught and mapped to 404. -/
def get_upload_status (ext : Ext) (svc : S3Service) (b : Backend)
    (uuidOk : Bool) (file_id : String) : HttpResult (List (String × JsonVal)) :=
  if ¬ uuidOk then
    .httpError 400 "Invalid file ID format"
  else
    match svc.get_file_status ext b file_id with
    | .ok fs => .ok fs.toDict
    | .error (.storageService m) => .httpError 404 m
    | .error (.fileValidation _) => .httpError 500 "Internal server error"

/-- Envelope data of the list route. -/
structure ListResponseData where
  files : List FileInfo
  total_files : Int
  total_size : Int
  keyFilter : String
  max_keys : Int
  deriving DecidableEq, Repr

/-- The else branch of routes/upload.list_files: call the service with the
request's max_keys and derive the totals; StorageServiceError maps to 500. -/
def list_files_body (ext : Ext) (svc : S3Service) (b : Backend)
    (keyFilter : String) (max_keys : Int) : HttpResult ListResponseData :=
  match svc.list_files ext b keyFilter max_keys with
  | .error e => .httpError 500 e.msg
  | .ok files =>
      .ok { files := files
          , total_files := (files.length : Int)
          , total_size := (files.map (fun fi => fi.size)).sum
          , keyFilter := keyFilter
          , max_keys := max_keys }

/-- routes/upload.list_files: reject max_keys outside (0, 1000] with 400,
otherwise proceed with exactly the requested value. -/
def list_files (ext : Ext) (svc : S3Service) (b : Backend)
    (keyFilter : String) (max_keys : Int) : HttpResult ListResponseData :=
  if max_keys ≤ 0 ∨ max_keys > 1000 then
    .httpError 400 "max_keys must be between 1 and 1000"
  else
    list_files_body ext svc b keyFilter max_keys

/-- routes/upload.get_presigned_download_url: reject a ttl outside
(0, 604800] with 400 before anything else, validate the filename, then
issue the signed URL and stamp expires_at as issuance time plus ttl. -/
def get_presigned_download_url (ext : Ext)
    (file_id filename : String) (expiration now : Int) :
    HttpResult PresignedDownloadResponse :=
  if expiration ≤ 0 ∨ expiration > 604800 then
    .httpError 400 "Expiration time must be between 1 and 604800 seconds (7 days)"
  else
    match validate_filename filename with
    | .error e => errTo400or500 e
    | .ok validated_filename =>
      let download_url := ext.presignGet file_id validated_filename expiration
      .ok { file_id := file_id
          , filename := validated_filename
          , download_url := download_url
          , expires_in := expiration
          , expires_at := now + expiration }

/-- routes/upload.get_presigned_upload_url: reject a ttl outside
(0, 604800] with 400, validate the filename, reject a declared
content-type outside the allow-list with 400, and only then mint the
signed grant with expires_at equal to issuance time plus ttl. -/
def get_presigned_upload_url (ext : Ext) (settings : Settings)
    (filename content_type : String) (expiration : Int) (file_id : String)
    (now : Int) : HttpResult PresignedUploadResponse :=
  if expiration ≤ 0 ∨ expiration > 604800 then
    .httpError 400 "Expiration time must be between 1 and 604800 seconds (7 days)"
  else
    match validate_filename filename with
    | .error e => errTo400or500 e
    | .ok validated_filename =>
      if content_type ∉ pySplitComma settings.allowed_file_types then
        .httpError 400
          ("Content type \x27" ++ content_type ++ "\x27 not allowed. Allowed types: " ++
           String.intercalate ", " (pySplitComma settings.allowed_file_types))
      else
        let presigned_post := ext.presignPost file_id validated_filename content_type expiration
        .ok { file_id := file_id
            , filename := validated_filename
            , upload_url := presigned_post.1
            , upload_fields := presigned_post.2
            , expires_in := expiration
            , expires_at := now + expiration }

end Routes

/-! Concrete instances used to evaluate the handlers on explicit inputs. -/

/-- A concrete oracle assignment: a two-entry extension table, sniffing
that reports plain text for any non-empty buffer, an ISO formatter tagging
the integer timestamp, and fixed presign outputs. -/
def ext0 : Ext where
  guessType := fun fn =>
    if ".txt".toList.isSuffixOf fn.toList then some "text/plain"
    else if ".pdf".toList.isSuffixOf fn.toList then some "application/pdf"
    else none
  sniff := fun bs => if bs = [] then none else some "text/plain"
  parseIso := fun _ => none
  isoFormat := fun t => "ts-" ++ toString t
  presignGet := fun _ _ _ => "https://signed.example/get"
  presignPost := fun _ _ _ _ => ("https://signed.example/post", [("key", "value")])

/-- The default settings of config.Settings. -/
def settings0 : Settings where
  max_file_size_mb := 100
  allowed_file_types := "image/jpeg,image/png,image/gif,application/pdf,text/plain"
  upload_path := "uploads/"

/-- A service over a test bucket. -/
def svc0 : S3Service := S3Service.init "test-bucket" "us-east-1" "uploads/"

/-- The empty bucket. -/
def st0 : S3State := { objects := [] }

/-- A backend whose list call fails with a non-NoSuchKey client error. -/
def b0 : Backend where
  listV2 := fun _ _ => .clientError "AccessDenied" "Access Denied"
  headObject := fun _ => .clientError "AccessDenied" "Access Denied"

/-! Helper lemmas. -/

/-- pyStrip only removes surrounding whitespace: the input splits as
whitespace, the stripped core, then whitespace. -/
theorem pyStrip_decomp (s : String) :
    ∃ w1 w2, s.toList = w1 ++ (pyStrip s).toList ++ w2
      ∧ (∀ c ∈ w1, pyIsSpace c = true) ∧ (∀ c ∈ w2, pyIsSpace c = true) := by
  refine ⟨s.toList.takeWhile pyIsSpace,
          ((s.toList.dropWhile pyIsSpace).reverse.takeWhile pyIsSpace).reverse,
          ?_, ?_, ?_⟩
  · show s.toList
        = s.toList.takeWhile pyIsSpace ++ (pyStrip s).toList
            ++ ((s.toList.dropWhile pyIsSpace).reverse.takeWhile pyIsSpace).reverse
    have h1 := List.takeWhile_append_dropWhile (p := pyIsSpace) (l := s.toList)
    have h2 := List.takeWhile_append_dropWhile (p := pyIsSpace)
      (l := (s.toList.dropWhile pyIsSpace).reverse)
    have h3 : s.toList.dropWhile pyIsSpace
        = (pyStrip s).toList
            ++ ((s.toList.dropWhile pyIsSpace).reverse.takeWhile pyIsSpace).reverse := by
      have h4 : (s.toList.dropWhile pyIsSpace).reverse.reverse
          = ((s.toList.dropWhile pyIsSpace).reverse.takeWhile pyIsSpace
              ++ (s.toList.dropWhile pyIsSpace).reverse.dropWhile pyIsSpace).reverse := by
        rw [h2]
      rw [List.reverse_reverse, List.reverse_append] at h4
      exact h4
    rw [List.append_assoc, ← h3, h1]
  · intro c hc
    exact List.mem_takeWhile_imp hc
  · intro c hc
    exact List.mem_takeWhile_imp (List.mem_reverse.mp hc)

/-- pyStrip of the empty string is empty. -/
theorem pyStrip_empty : pyStrip "" = "" := rfl

/-- C6: filename validation rejects empty and whitespace-only names,
rejects any name whose trimmed form contains a reserved character sequence
with an error citing one such offending sequence, rejects trimmed names
over 255 characters, and on acceptance returns exactly the
whitespace-trimmed input, which contains no reserved sequence and is at
most 255 characters long. -/
theorem validate_filename_spec (s out : String) :
    (pyStrip s = "" →
      validate_filename s = .error (.fileValidation "Filename cannot be empty"))
    ∧ ((∃ d ∈ dangerous_chars, containsSub d (pyStrip s) = true) → pyStrip s ≠ "" →
      ∃ c ∈ dangerous_chars, containsSub c (pyStrip s) = true ∧
        validate_filename s
          = .error (.fileValidation
              ("Filename contains invalid character: \x27" ++ c ++ "\x27")))
    ∧ ((pyStrip s).length > 255 →
      ∃ m, validate_filename s = .error (.fileValidation m))
    ∧ (validate_filename s = .ok out →
      out = pyStrip s
      ∧ (∀ d ∈ dangerous_chars, containsSub d out = false)
      ∧ out.length ≤ 255
      ∧ (∃ w1 w2, s.toList = w1 ++ out.toList ++ w2
          ∧ (∀ c ∈ w1, pyIsSpace c = true) ∧ (∀ c ∈ w2, pyIsSpace c = true))) := by
  have hcond : ∀ h : pyStrip s ≠ "", ¬ (s = "" ∨ pyStrip s = "") := by
    rintro h (rfl | h2)
    · exact h pyStrip_empty
    · exact h h2
  refine ⟨?_, ?_, ?_, ?_⟩
  · intro h
    unfold validate_filename
    rw [if_pos (Or.inr h)]
  · intro hex hne
    obtain ⟨c, hfind⟩ : ∃ c, dangerous_chars.find? (fun c => containsSub c (pyStrip s)) = some c := by
      have : (dangerous_chars.find? (fun c => containsSub c (pyStrip s))).isSome := by
        rw [List.find?_isSome]
        obtain ⟨d, hd, hdc⟩ := hex
        exact ⟨d, hd, hdc⟩
      exact Option.isSome_iff_exists.mp this
    refine ⟨c, List.mem_of_find?_eq_some hfind, ?_, ?_⟩
    · have := List.find?_some hfind
      simpa using this
    · unfold validate_filename
      rw [if_neg (hcond hne)]
      simp only [hfind]
  · intro hlen
    by_cases hne : pyStrip s = ""
    · exact ⟨"Filename cannot be empty", by unfold validate_filename; rw [if_pos (Or.inr hne)]⟩
    · unfold validate_filename
      rw [if_neg (hcond hne)]
      cases hfind : dangerous_chars.find? (fun c => containsSub c (pyStrip s)) with
      | some c =>
          exact ⟨"Filename contains invalid character: \x27" ++ c ++ "\x27",
            by simp only [hfind]⟩
      | none =>
          refine ⟨"Filename too long (maximum 255 characters)", ?_⟩
          simp only [hfind]
          rw [if_pos hlen]
  · intro hok
    unfold validate_filename at hok
    by_cases hne : pyStrip s = ""
    · rw [if_pos (Or.inr hne)] at hok
      exact absurd hok (by simp)
    · rw [if_neg (hcond hne)] at hok
      cases hfind : dangerous_chars.find? (fun c => containsSub c (pyStrip s)) with
      | some c =>
          simp only [hfind] at hok
          exact absurd hok (by simp)
      | none =>
          simp only [hfind] at hok
          by_cases hlen : (pyStrip s).length > 255
          · rw [if_pos hlen] at hok
            exact absurd hok (by simp)
          · rw [if_neg hlen] at hok
            have hout : out = pyStrip s := by
              cases hok
              rfl
            subst hout
            refine ⟨rfl, ?_, Nat.le_of_not_lt hlen, pyStrip_decomp s⟩
            intro d hd
            have := List.find?_eq_none.mp hfind d hd
            simpa using this

/-- C6 witness: a name with surrounding whitespace and a forward slash is
rejected citing the slash. -/
theorem validate_filename_spec_witness :
    ∃ c ∈ dangerous_chars, containsSub c (pyStrip " bad/name.txt ") = true ∧
      validate_filename " bad/name.txt "
        = .error (.fileValidation
            ("Filename contains invalid character: \x27" ++ c ++ "\x27")) :=
  (validate_filename_spec " bad/name.txt " "").2.1 (by decide) (by decide)

/-- C7: size validation rejects zero and negative sizes, rejects sizes
strictly above max_size_mb times 1048576 bytes, and accepts every size in
between, the exact ceiling included. -/
theorem validate_file_size_spec (file_size max_size_mb : Int) :
    (file_size ≤ 0 →
      validate_file_size file_size max_size_mb
        = .error (.fileValidation "File size must be greater than 0"))
    ∧ (0 < file_size → file_size > max_size_mb * 1048576 →
      ∃ m, validate_file_size file_size max_size_mb = .error (.fileValidation m))
    ∧ (0 < file_size → file_size ≤ max_size_mb * 1048576 →
      validate_file_size file_size max_size_mb = .ok ()) := by
  refine ⟨?_, ?_, ?_⟩
  · intro h
    unfold validate_file_size
    rw [if_pos h]
  · intro h1 h2
    refine ⟨"File size (" ++ toString file_size ++
      " bytes) exceeds maximum allowed size (" ++
      toString (max_size_mb * 1024 * 1024) ++ " bytes)", ?_⟩
    unfold validate_file_size
    rw [if_neg (by omega), if_pos (by omega)]
  · intro h1 h2
    unfold validate_file_size
    rw [if_neg (by omega), if_neg (by omega)]

/-- C7 witness: the exact ceiling for a 1 MB limit is accepted, one byte
more is rejected, and zero is rejected. -/
theorem validate_file_size_spec_witness :
    validate_file_size 1048576 1 = .ok ()
    ∧ (∃ m, validate_file_size 1048577 1 = .error (.fileValidation m))
    ∧ validate_file_size 0 1
        = .error (.fileValidation "File size must be greater than 0") :=
  ⟨(validate_file_size_spec 1048576 1).2.2 (by decide) (by decide),
   (validate_file_size_spec 1048577 1).2.1 (by decide) (by decide),
   (validate_file_size_spec 0 1).1 (by decide)⟩

/-- C8: the list route rejects a max_keys outside (0, 1000] with a 400
validation error, and for a max_keys inside the interval it proceeds into
the handler body with exactly that value. -/
theorem list_files_max_keys_clamp (ext : Ext) (svc : S3Service) (b : Backend)
    (keyFilter : String) (max_keys : Int) :
    ((max_keys ≤ 0 ∨ max_keys > 1000) →
      Routes.list_files ext svc b keyFilter max_keys
        = .httpError 400 "max_keys must be between 1 and 1000")
    ∧ (0 < max_keys → max_keys ≤ 1000 →
      Routes.list_files ext svc b keyFilter max_keys
        = Routes.list_files_body ext svc b keyFilter max_keys) := by
  constructor
  · intro h
    unfold Routes.list_files
    rw [if_pos h]
  · intro h1 h2
    unfold Routes.list_files
    rw [if_neg (by omega)]

/-- C8 witness: max_keys 0 and 1001 are rejected, max_keys 1000 proceeds
over the honest empty-bucket backend and lists nothing. -/
theorem list_files_max_keys_clamp_witness :
    Routes.list_files ext0 svc0 st0.backend "" 0
      = .httpError 400 "max_keys must be between 1 and 1000"
    ∧ Routes.list_files ext0 svc0 st0.backend "" 1001
      = .httpError 400 "max_keys must be between 1 and 1000"
    ∧ Routes.list_files ext0 svc0 st0.backend "" 1000
      = Routes.list_files_body ext0 svc0 st0.backend "" 1000 :=
  ⟨(list_files_max_keys_clamp ext0 svc0 st0.backend "" 0).1 (by decide),
   (list_files_max_keys_clamp ext0 svc0 st0.backend "" 1001).1 (by decide),
   (list_files_max_keys_clamp ext0 svc0 st0.backend "" 1000).2 (by decide) (by decide)⟩

/-- C1: both presigned routes reject a ttl that is zero, negative or above
604800 seconds with a 400 validation error whose outcome is the same for
every signing backend (so no grant is created), and for an accepted ttl on
an otherwise valid request they return a grant whose expires_at is the
issuance time plus the ttl. -/
theorem presigned_ttl_spec (ext : Ext) (settings : Settings)
    (file_id filename content_type : String) (expiration now : Int) :
    ((expiration ≤ 0 ∨ expiration > 604800) →
      Routes.get_presigned_download_url ext file_id filename expiration now
        = .httpError 400 "Expiration time must be between 1 and 604800 seconds (7 days)"
      ∧ Routes.get_presigned_upload_url ext settings filename content_type
          expiration file_id now
        = .httpError 400 "Expiration time must be between 1 and 604800 seconds (7 days)")
    ∧ (0 < expiration → expiration ≤ 604800 →
      ∀ vf, validate_filename filename = .ok vf →
        (∃ r, Routes.get_presigned_download_url ext file_id filename expiration now
            = .ok r ∧ r.expires_in = expiration ∧ r.expires_at = now + expiration)
        ∧ (content_type ∈ pySplitComma settings.allowed_file_types →
          ∃ r, Routes.get_presigned_upload_url ext settings filename content_type
              expiration file_id now
            = .ok r ∧ r.expires_in = expiration ∧ r.expires_at = now + expiration)) := by
  constructor
  · intro h
    constructor
    · unfold Routes.get_presigned_download_url
      rw [if_pos h]
    · unfold Routes.get_presigned_upload_url
      rw [if_pos h]
  · intro h1 h2 vf hvf
    constructor
    · refine ⟨{ file_id := file_id, filename := vf
              , download_url := ext.presignGet file_id vf expiration
              , expires_in := expiration, expires_at := now + expiration },
        ?_, rfl, rfl⟩
      unfold Routes.get_presigned_download_url
      rw [if_neg (by omega)]
      simp only [hvf]
    · intro hct
      refine ⟨{ file_id := file_id, filename := vf
              , upload_url := (ext.presignPost file_id vf content_type expiration).1
              , upload_fields := (ext.presignPost file_id vf content_type expiration).2
              , expires_in := expiration, expires_at := now + expiration },
        ?_, rfl, rfl⟩
      unfold Routes.get_presigned_upload_url
      rw [if_neg (by omega)]
      simp only [hvf]
      rw [if_neg (by simpa using hct)]

/-- C1 witness: ttl 0 and 604801 are rejected on both routes, and ttl 3600
at issuance time 1000 yields grants expiring at 4600 on both routes. -/
theorem presigned_ttl_spec_witness :
    (Routes.get_presigned_download_url ext0 "fid" "report.pdf" 0 1000
      = .httpError 400 "Expiration time must be between 1 and 604800 seconds (7 days)")
    ∧ (Routes.get_presigned_upload_url ext0 settings0 "report.pdf" "application/pdf" 604801 "fid" 1000
      = .httpError 400 "Expiration time must be between 1 and 604800 seconds (7 days)")
    ∧ (∃ r, Routes.get_presigned_download_url ext0 "fid" "report.pdf" 3600 1000
        = .ok r ∧ r.expires_in = 3600 ∧ r.expires_at = 1000 + 3600)
    ∧ (∃ r, Routes.get_presigned_upload_url ext0 settings0 "report.pdf" "application/pdf" 3600 "fid" 1000
        = .ok r ∧ r.expires_in = 3600 ∧ r.expires_at = 1000 + 3600) :=
  ⟨((presigned_ttl_spec ext0 settings0 "fid" "report.pdf" "application/pdf" 0 1000).1
      (by decide)).1,
   ((presigned_ttl_spec ext0 settings0 "fid" "report.pdf" "application/pdf" 604801 1000).1
      (by decide)).2,
   ((presigned_ttl_spec ext0 settings0 "fid" "report.pdf" "application/pdf" 3600 1000).2
      (by decide) (by decide) "report.pdf" (by rfl)).1,
   ((presigned_ttl_spec ext0 settings0 "fid" "report.pdf" "application/pdf" 3600 1000).2
      (by decide) (by decide) "report.pdf" (by rfl)).2 (by decide)⟩

/-- A backend whose list call reports no matching object. -/
def bEmpty : Backend where
  listV2 := fun _ _ => .ok []
  headObject := fun _ => .clientError "404" "Not Found"

/-- The failure side of claim C2 as stated: a status call whose backend
list call fails with a client error other than NoSuchKey surfaces at the
endpoint as HTTP 500. -/
def statusBackendFailureGives500 (ext : Ext) (svc : S3Service) : Prop :=
  ∀ (b : Backend) (file_id code msg : String),
    b.listV2 (svc.upload_path ++ file_id ++ "/") none = .clientError code msg →
    code ≠ "NoSuchKey" →
    ∃ m, Routes.get_upload_status ext svc b true file_id = .httpError 500 m

/-- C2 counterexample: with a backend whose list call fails with
AccessDenied, the status endpoint answers 404, not 500 — the route catches
every StorageServiceError with a 404 translation. -/
theorem status_backend_failure_counterexample :
    ¬ statusBackendFailureGives500 ext0 svc0 := by
  intro h
  obtain ⟨m, hm⟩ := h b0 "fid" "AccessDenied" "Access Denied" rfl (by decide)
  have h404 : Routes.get_upload_status ext0 svc0 b0 true "fid"
      = .httpError 404 "Failed to get file status: Access Denied" := rfl
  rw [h404] at hm
  exact absurd hm (by simp)

/-- C2 amended: get_file_status raises the single StorageServiceError type
for the not-found case and for every other backend failure alike, and the
status endpoint translates every StorageServiceError to HTTP 404 — 500 is
never produced for a backend failure; the two failure kinds differ only in
the message text. -/
theorem status_errors_all_map_to_404 (ext : Ext) (svc : S3Service) (b : Backend)
    (file_id : String) :
    (∀ m, svc.get_file_status ext b file_id = .error (.storageService m) →
      Routes.get_upload_status ext svc b true file_id = .httpError 404 m)
    ∧ (b.listV2 (svc.upload_path ++ file_id ++ "/") none = .ok [] →
      Routes.get_upload_status ext svc b true file_id
        = .httpError 404 ("Unexpected error getting file status: File with ID "
            ++ file_id ++ " not found"))
    ∧ (∀ code msg, b.listV2 (svc.upload_path ++ file_id ++ "/") none
          = .clientError code msg → code ≠ "NoSuchKey" →
      Routes.get_upload_status ext svc b true file_id
        = .httpError 404 ("Failed to get file status: " ++ msg)) := by
  have hmap : ∀ m, svc.get_file_status ext b file_id = .error (.storageService m) →
      Routes.get_upload_status ext svc b true file_id = .httpError 404 m := by
    intro m hm
    unfold Routes.get_upload_status
    rw [if_neg (by simp)]
    simp only [hm]
  refine ⟨hmap, ?_, ?_⟩
  · intro hl
    apply hmap
    unfold S3Service.get_file_status
    simp only [hl]
  · intro code msg hl hcode
    apply hmap
    unfold S3Service.get_file_status
    simp only [hl]
    rw [if_neg hcode]

/-- C2 amended witness: the empty-bucket backend yields a 404 with the
wrapped not-found message, and an AccessDenied backend also yields a 404
carrying the backend message. -/
theorem status_errors_all_map_to_404_witness :
    Routes.get_upload_status ext0 svc0 bEmpty true "fid"
      = .httpError 404 "Unexpected error getting file status: File with ID fid not found"
    ∧ Routes.get_upload_status ext0 svc0 b0 true "fid"
      = .httpError 404 "Failed to get file status: Access Denied" :=
  ⟨(status_errors_all_map_to_404 ext0 svc0 bEmpty "fid").2.1 rfl,
   (status_errors_all_map_to_404 ext0 svc0 b0 "fid").2.2 "AccessDenied" "Access Denied"
     rfl (by decide)⟩

/-- An accepted filename is never the empty string. -/
theorem validate_filename_ok_ne_empty {s out : String}
    (h : validate_filename s = .ok out) : out ≠ "" := by
  unfold validate_filename at h
  by_cases hc : s = "" ∨ pyStrip s = ""
  · rw [if_pos hc] at h
    exact absurd h (by simp)
  · rw [if_neg hc] at h
    cases hfind : dangerous_chars.find? (fun c => containsSub c (pyStrip s)) with
    | some c =>
        simp only [hfind] at h
        exact absurd h (by simp)
    | none =>
        simp only [hfind] at h
        by_cases hlen : (pyStrip s).length > 255
        · rw [if_pos hlen] at h
          exact absurd h (by simp)
        · rw [if_neg hlen] at h
          cases h
          intro hemp
          exact hc (Or.inr hemp)

/-- The single-upload request of the C4 counterexample: a txt file whose
multipart part declares a content type outside the allow-list. -/
def f0 : UploadFileIn where
  filenameOpt := some "a.txt"
  declaredType := some "application/zip"
  content := [104, 105]
  fileId := "id4"
  putOk := true

/-- Claim C4 as stated for the single-upload route: every request whose
multipart-declared content type lies outside the allow-list is rejected
with a 400 validation error. -/
def declaredTypeAlwaysRejected (ext : Ext) (settings : Settings) : Prop :=
  ∀ (svc : S3Service) (st : S3State) (f : UploadFileIn) (now : Int) (dt : String),
    f.declaredType = some dt →
    dt ∉ pySplitComma settings.allowed_file_types →
    ∃ m, Routes.upload_single_file ext settings svc st f now = .httpError 400 m

/-- C4 counterexample: a request declaring the disallowed type
application/zip but named a.txt is accepted — the single-upload route never
consults the declared multipart content type, only the type resolved from
the (sanitized) filename or the content bytes. -/
theorem declared_type_counterexample :
    ¬ declaredTypeAlwaysRejected ext0 settings0 := by
  intro h
  obtain ⟨m, hm⟩ := h svc0 st0 f0 0 "application/zip" rfl (by decide)
  have hok : (Routes.upload_single_file ext0 settings0 svc0 st0 f0 0).isOk = true := rfl
  rw [hm] at hok
  exact Bool.noConfusion hok

/-- C4 amended: the presigned-upload route rejects a declared content type
outside the allow-list with 400 before the signing call (the outcome is
identical for every signing backend, so no grant is created); the single
upload route ignores the declared multipart type and instead rejects with
400, before any storage call and for every bucket state and put outcome,
whenever the type resolved from the validated filename or the content is
outside the allow-list — so no object is ever stored under a disallowed
resolved type. -/
theorem disallowed_type_rejected_before_backend
    (ext : Ext) (settings : Settings) (svc : S3Service) (st : S3State)
    (f : UploadFileIn) (filename content_type vf : String)
    (file_id : String) (expiration now : Int) :
    (0 < expiration → expiration ≤ 604800 →
      validate_filename filename = .ok vf →
      content_type ∉ pySplitComma settings.allowed_file_types →
      Routes.get_presigned_upload_url ext settings filename content_type
          expiration file_id now
        = .httpError 400
            ("Content type \x27" ++ content_type ++ "\x27 not allowed. Allowed types: "
              ++ String.intercalate ", " (pySplitComma settings.allowed_file_types)))
    ∧ (∀ m, validate_filename (pyOrUnknown f.filenameOpt) = .ok vf →
      resolveMime ext vf (some f.content) = some m →
      m ∉ pySplitComma settings.allowed_file_types →
      Routes.upload_single_file ext settings svc st f now
        = .httpError 400
            ("File type \x27" ++ m ++ "\x27 is not allowed. Allowed types: "
              ++ String.intercalate ", " (pySplitComma settings.allowed_file_types))) := by
  constructor
  · intro h1 h2 hvf hct
    unfold Routes.get_presigned_upload_url
    rw [if_neg (by omega)]
    simp only [hvf]
    rw [if_pos hct]
  · intro m hfn hrm hm
    unfold Routes.upload_single_file
    simp only [hfn]
    unfold validate_file_type
    rw [if_neg (validate_filename_ok_ne_empty hfn)]
    simp only [hrm]
    rw [if_pos hm]
    rfl

/-- The oracle of the C4 amended witness: no extension table entry and
content sniffing reporting a zip archive. -/
def ext1 : Ext where
  guessType := fun _ => none
  sniff := fun _ => some "application/zip"
  parseIso := fun _ => none
  isoFormat := fun t => "ts-" ++ toString t
  presignGet := fun _ _ _ => "https://signed.example/get"
  presignPost := fun _ _ _ _ => ("https://signed.example/post", [("key", "value")])

/-- The single-upload request of the C4 amended witness: its content
sniffs as a zip archive. -/
def f1 : UploadFileIn where
  filenameOpt := some "evil.bin"
  declaredType := none
  content := [80, 75]
  fileId := "id5"
  putOk := true

/-- C4 amended witness: the presigned-upload route rejects the declared
type application/zip with 400, and the single route rejects a file whose
resolved type is application/zip with 400. -/
theorem disallowed_type_rejected_before_backend_witness :
    Routes.get_presigned_upload_url ext0 settings0 "report.pdf" "application/zip" 3600 "fid" 0
      = .httpError 400
          ("Content type \x27" ++ "application/zip" ++ "\x27 not allowed. Allowed types: "
            ++ String.intercalate ", " (pySplitComma settings0.allowed_file_types))
    ∧ Routes.upload_single_file ext1 settings0 svc0 st0 f1 0
      = .httpError 400
          ("File type \x27" ++ "application/zip" ++ "\x27 is not allowed. Allowed types: "
            ++ String.intercalate ", " (pySplitComma settings0.allowed_file_types)) :=
  ⟨(disallowed_type_rejected_before_backend ext0 settings0 svc0 st0 f1 "report.pdf"
      "application/zip" "report.pdf" "fid" 3600 0).1
      (by decide) (by decide) (by rfl) (by decide),
   (disallowed_type_rejected_before_backend ext1 settings0 svc0 st0 f1 "report.pdf"
      "application/zip" "evil.bin" "fid" 3600 0).2
      "application/zip" (by rfl) (by rfl) (by decide)⟩

/-- C10: the upload handlers do not reject a part that carries no filename.
The literal unknown is substituted and passes filename validation, and when
content sniffing resolves an allowed type for a size-valid body the single
route uploads successfully, storing the object with filename unknown in its
metadata; the per-file body of the multi-file route accepts the same part. -/
theorem missing_filename_substitutes_unknown
    (ext : Ext) (settings : Settings) (svc : S3Service) (st : S3State)
    (content : ByteSeq) (dt : Option String) (file_id : String) (now : Int) (m : String)
    (hg : ext.guessType "unknown" = none)
    (hne : content ≠ [])
    (hsn : ext.sniff content = some m)
    (hal : m ∈ pySplitComma settings.allowed_file_types)
    (hsz : (content.length : Int) ≤ settings.max_file_size_mb * 1024 * 1024) :
    validate_filename (pyOrUnknown none) = .ok "unknown"
    ∧ (∃ resp st1 obj,
        Routes.upload_single_file ext settings svc st
            ⟨none, dt, content, file_id, true⟩ now = .ok (resp, st1)
        ∧ resp.filename = "unknown"
        ∧ resp.file_type = m
        ∧ st1.objects = st.objects ++ [obj]
        ∧ obj.metadata.lookup "original_filename" = some "unknown")
    ∧ (∃ resp st1,
        Routes.processFile ext settings svc st
            ⟨none, dt, content, file_id, true⟩ now = some (resp, st1)
        ∧ resp.filename = "unknown") := by
  have hlen : 0 < content.length := List.length_pos.mpr hne
  have hfn : validate_filename (pyOrUnknown none) = .ok "unknown" := rfl
  have hrm : resolveMime ext "unknown" (some content) = some m := by
    unfold resolveMime
    rw [hg]
    show (if content ≠ [] then ext.sniff content else none) = some m
    rw [if_pos hne, hsn]
  have hft : validate_file_type ext "unknown"
      (pySplitComma settings.allowed_file_types) (some content) = .ok m := by
    unfold validate_file_type
    rw [if_neg (by decide)]
    simp only [hrm]
    rw [if_neg (not_not_intro hal)]
  have hfs : validate_file_size (content.length : Int) settings.max_file_size_mb
      = .ok () := by
    unfold validate_file_size
    rw [if_neg (by omega), if_neg (by omega)]
  refine ⟨hfn,
    ⟨{ file_id := file_id, filename := "unknown"
     , file_size := (content.length : Int), file_type := m
     , storage_url := svc.storageUrl (svc.upload_path ++ file_id ++ "/" ++ "unknown")
     , uploaded_at := now },
     { objects := st.objects ++
        [{ key := svc.upload_path ++ file_id ++ "/" ++ "unknown"
         , body := content, contentType := m
         , metadata := [ ("file_id", file_id), ("original_filename", "unknown")
                       , ("uploaded_at", ext.isoFormat now) ]
         , storageClass := none, lastModified := now }] },
     { key := svc.upload_path ++ file_id ++ "/" ++ "unknown"
     , body := content, contentType := m
     , metadata := [ ("file_id", file_id), ("original_filename", "unknown")
                   , ("uploaded_at", ext.isoFormat now) ]
     , storageClass := none, lastModified := now },
     ?_, rfl, rfl, rfl, rfl⟩,
    ⟨{ file_id := file_id, filename := "unknown"
     , file_size := (content.length : Int), file_type := m
     , storage_url := svc.storageUrl (svc.upload_path ++ file_id ++ "/" ++ "unknown")
     , uploaded_at := now },
     { objects := st.objects ++
        [{ key := svc.upload_path ++ file_id ++ "/" ++ "unknown"
         , body := content, contentType := m
         , metadata := [ ("file_id", file_id), ("original_filename", "unknown")
                       , ("uploaded_at", ext.isoFormat now) ]
         , storageClass := none, lastModified := now }] },
     ?_, rfl⟩⟩
  · unfold Routes.upload_single_file
    simp only [hfn, hft, hfs]
    rfl
  · unfold Routes.processFile
    simp only [hfn, hft, hfs]
    rfl

/-- C10 witness: a part with no filename and a two-byte body that sniffs
as text/plain uploads successfully under the stored name unknown. -/
theorem missing_filename_substitutes_unknown_witness :
    validate_filename (pyOrUnknown none) = .ok "unknown"
    ∧ (∃ resp st1 obj,
        Routes.upload_single_file ext0 settings0 svc0 st0
            ⟨none, none, [104, 105], "id6", true⟩ 0 = .ok (resp, st1)
        ∧ resp.filename = "unknown"
        ∧ resp.file_type = "text/plain"
        ∧ st1.objects = st0.objects ++ [obj]
        ∧ obj.metadata.lookup "original_filename" = some "unknown")
    ∧ (∃ resp st1,
        Routes.processFile ext0 settings0 svc0 st0
            ⟨none, none, [104, 105], "id6", true⟩ 0 = some (resp, st1)
        ∧ resp.filename = "unknown") :=
  missing_filename_substitutes_unknown ext0 settings0 svc0 st0 [104, 105] none "id6" 0
    "text/plain" (by rfl) (by decide) (by rfl) (by decide) (by decide)

/-- A file of a batch request passes the validation pipeline and persists:
the state-independent success predicate of one loop iteration. -/
def fileSucceeds (ext : Ext) (settings : Settings) (f : UploadFileIn) : Bool :=
  match validate_filename (pyOrUnknown f.filenameOpt) with
  | .error _ => false
  | .ok vf =>
    match validate_file_type ext vf (pySplitComma settings.allowed_file_types)
        (some f.content) with
    | .error _ => false
    | .ok _ =>
      match validate_file_size (f.content.length : Int) settings.max_file_size_mb with
      | .error _ => false
      | .ok _ => f.putOk

/-- One loop iteration of the batch route produces a value exactly when the
file passes validation and the put call succeeds, for every bucket state. -/
theorem processFile_isSome (ext : Ext) (settings : Settings) (svc : S3Service)
    (st : S3State) (f : UploadFileIn) (now : Int) :
    (Routes.processFile ext settings svc st f now).isSome
      = fileSucceeds ext settings f := by
  unfold Routes.processFile fileSucceeds S3Service.upload_file
  cases hput : f.putOk
  all_goals repeat' split
  all_goals first
  | rfl
  | simp_all

/-- The batch loop returns exactly the responses of the succeeding files,
in order, and accumulates exactly their byte lengths. -/
theorem uploadLoop_spec (ext : Ext) (settings : Settings) (svc : S3Service)
    (now : Int) :
    ∀ (files : List UploadFileIn) (st : S3State),
      (Routes.uploadLoop ext settings svc now files st).1.length
          = (files.filter (fun f => fileSucceeds ext settings f)).length
      ∧ (Routes.uploadLoop ext settings svc now files st).2.1
          = ((files.filter (fun f => fileSucceeds ext settings f)).map
              (fun f => (f.content.length : Int))).sum := by
  intro files
  induction files with
  | nil => intro st; exact ⟨rfl, rfl⟩
  | cons f rest ih =>
    intro st
    unfold Routes.uploadLoop
    cases hp : Routes.processFile ext settings svc st f now with
    | some pr =>
      obtain ⟨resp, st1⟩ := pr
      have hs : fileSucceeds ext settings f = true := by
        rw [← processFile_isSome ext settings svc st f now, hp]
        rfl
      simp only [List.filter_cons, hs, if_true, List.length_cons, List.map_cons,
        List.sum_cons]
      exact ⟨by rw [(ih st1).1], by rw [(ih st1).2]⟩
    | none =>
      have hs : fileSucceeds ext settings f = false := by
        rw [← processFile_isSome ext settings svc st f now, hp]
        rfl
      simp only [List.filter_cons, hs, if_false]
      exact ih st

/-- C5: the batch route attempts each file independently, skipping
failures; when exactly K files pass validation and persist it answers 200
with exactly K entries in uploaded_files, total_files equal to K and
total_size equal to the sum of the K files byte lengths, and it fails as a
whole with 400 exactly when K is zero. -/
theorem upload_multiple_partial_success
    (ext : Ext) (settings : Settings) (svc : S3Service) (st : S3State)
    (files : List UploadFileIn) (now : Int) (K : Nat)
    (hK : (files.filter (fun f => fileSucceeds ext settings f)).length = K) :
    (K = 0 → Routes.upload_multiple_files ext settings svc st files now
        = .httpError 400 "No files were successfully uploaded")
    ∧ (K ≠ 0 → ∃ resp st1,
        Routes.upload_multiple_files ext settings svc st files now = .ok (resp, st1)
        ∧ resp.uploaded_files.length = K
        ∧ resp.total_files = (K : Int)
        ∧ resp.total_size = ((files.filter (fun f => fileSucceeds ext settings f)).map
            (fun f => (f.content.length : Int))).sum) := by
  obtain ⟨hlen, hsum⟩ := uploadLoop_spec ext settings svc now files st
  constructor
  · intro h0
    unfold Routes.upload_multiple_files
    rw [if_pos (List.length_eq_zero.mp (by rw [hlen, hK, h0]))]
  · intro hne
    have hnil : (Routes.uploadLoop ext settings svc now files st).1 ≠ [] := by
      intro h
      apply hne
      rw [← hK, ← hlen, h]
      rfl
    unfold Routes.upload_multiple_files
    rw [if_neg hnil]
    refine ⟨_, _, rfl, ?_, ?_, ?_⟩
    · rw [hlen, hK]
    · show ((Routes.uploadLoop ext settings svc now files st).1.length : Int) = (K : Int)
      rw [hlen, hK]
    · show (Routes.uploadLoop ext settings svc now files st).2.1 = _
      exact hsum

/-- The two files of the C5 witness: a valid text file and a file whose
type cannot be resolved (no extension entry and an empty body). -/
def files0 : List UploadFileIn :=
  [ { filenameOpt := some "a.txt", declaredType := none, content := [104, 105]
    , fileId := "idA", putOk := true }
  , { filenameOpt := some "bad.zip", declaredType := none, content := []
    , fileId := "idB", putOk := true } ]

/-- C5 witness: of the two files exactly one succeeds; the response lists
one file, total_files 1 and total_size 2, the byte length of the one
persisted file. -/
theorem upload_multiple_partial_success_witness :
    ∃ resp st1,
      Routes.upload_multiple_files ext0 settings0 svc0 st0 files0 0 = .ok (resp, st1)
      ∧ resp.uploaded_files.length = 1
      ∧ resp.total_files = (1 : Int)
      ∧ resp.total_size = ((files0.filter (fun f => fileSucceeds ext0 settings0 f)).map
          (fun f => (f.content.length : Int))).sum :=
  (upload_multiple_partial_success ext0 settings0 svc0 st0 files0 0 1 (by rfl)).2
    (by decide)

/-- Appending preserves the character list. -/
theorem strToList_append (a b : String) : (a ++ b).toList = a.toList ++ b.toList := by
  cases a
  cases b
  rfl

/-- Every character list is a prefix of itself extended on the right. -/
theorem listIsPrefixOf_append (a b : List Char) : a.isPrefixOf (a ++ b) = true := by
  induction a with
  | nil => simp
  | cons c t ih => simp [List.isPrefixOf_cons₂, ih]

/-- A string extended on the right starts with the original string. -/
theorem strStartsWith_append (a b : String) : strStartsWith (a ++ b) a = true := by
  unfold strStartsWith
  rw [strToList_append]
  exact listIsPrefixOf_append _ _

/-- The serialized status record never carries a file_size or file_type
field: its field map has exactly the five keys of FileStatusResponse. -/
theorem statusDict_has_no_size (r : FileStatusResponse) :
    r.toDict.lookup "file_size" = none ∧ r.toDict.lookup "file_type" = none :=
  ⟨rfl, rfl⟩

/-- Reading the status of the just-appended object over the honest backend:
when the new object's key starts with the identity key filter and nothing
else in the bucket does, get_file_status succeeds and reports the metadata
filename (default unknown), status uploaded and the object's storage URL. -/
theorem get_file_status_after_append
    (ext : Ext) (svc : S3Service) (st : S3State) (obj : StoredObject)
    (file_id : String)
    (hkey : strStartsWith obj.key (svc.upload_path ++ file_id ++ "/") = true)
    (hfresh : ∀ o ∈ st.objects,
        strStartsWith o.key (svc.upload_path ++ file_id ++ "/") = false) :
    ∃ fs, S3Service.get_file_status svc ext
        (S3State.backend { objects := st.objects ++ [obj] }) file_id = .ok fs
      ∧ fs.filename = (obj.metadata.lookup "original_filename").getD "unknown"
      ∧ fs.status = "uploaded"
      ∧ fs.file_id = file_id
      ∧ fs.storage_url = some (svc.storageUrl obj.key) := by
  have hfilter0 : st.objects.filter
      (fun o => strStartsWith o.key (svc.upload_path ++ file_id ++ "/")) = [] := by
    rw [List.filter_eq_nil_iff]
    intro o ho
    simp [hfresh o ho]
  have hfindnone : st.objects.find? (fun o => o.key = obj.key) = none := by
    rw [List.find?_eq_none]
    intro o ho
    simp only [decide_eq_true_eq]
    intro he
    have hf := hfresh o ho
    rw [he, hkey] at hf
    exact Bool.noConfusion hf
  have hlv : (S3State.backend { objects := st.objects ++ [obj] }).listV2
      (svc.upload_path ++ file_id ++ "/") none = .ok [obj] := by
    show S3Resp.ok ((st.objects ++ [obj]).filter
        (fun o => strStartsWith o.key (svc.upload_path ++ file_id ++ "/"))) = _
    rw [List.filter_append, hfilter0]
    simp [hkey]
  have hhead : (S3State.backend { objects := st.objects ++ [obj] }).headObject obj.key
      = .ok obj := by
    show (match (st.objects ++ [obj]).find? (fun o => o.key = obj.key) with
          | some o => S3Resp.ok o
          | none => S3Resp.clientError "404" "Not Found") = .ok obj
    rw [List.find?_append, hfindnone]
    simp
  unfold S3Service.get_file_status
  simp only [hlv, hhead]
  exact ⟨_, rfl, rfl, rfl, rfl, rfl⟩

/-- C3 amended: after a successful single upload of bytes B with filename
F, a status call with the returned identity (no intervening write under
that identity) succeeds; the status record's filename equals the sanitized
F, but the status record exposes no size or type fields at all — B's
validated byte length and resolved MIME type are carried by the upload
response and by the stored object, where they do match. -/
theorem upload_then_status_roundtrip
    (ext : Ext) (settings : Settings) (svc : S3Service) (st : S3State)
    (f : UploadFileIn) (now : Int) (vf mime : String)
    (hfn : validate_filename (pyOrUnknown f.filenameOpt) = .ok vf)
    (hft : validate_file_type ext vf (pySplitComma settings.allowed_file_types)
        (some f.content) = .ok mime)
    (hfs : validate_file_size (f.content.length : Int) settings.max_file_size_mb
        = .ok ())
    (hput : f.putOk = true)
    (hfresh : ∀ o ∈ st.objects,
        strStartsWith o.key (svc.upload_path ++ f.fileId ++ "/") = false) :
    ∃ resp st1,
      Routes.upload_single_file ext settings svc st f now = .ok (resp, st1)
      ∧ resp.filename = vf
      ∧ resp.file_size = (f.content.length : Int)
      ∧ resp.file_type = mime
      ∧ (∃ fs, S3Service.get_file_status svc ext st1.backend f.fileId = .ok fs
          ∧ fs.filename = vf
          ∧ fs.status = "uploaded"
          ∧ fs.toDict.lookup "file_size" = none
          ∧ fs.toDict.lookup "file_type" = none)
      ∧ (∃ obj, st1.objects = st.objects ++ [obj]
          ∧ obj.body = f.content
          ∧ obj.contentType = mime
          ∧ obj.metadata.lookup "original_filename" = some vf) := by
  have hroute : Routes.upload_single_file ext settings svc st f now
      = .ok ( { file_id := f.fileId, filename := vf
              , file_size := (f.content.length : Int), file_type := mime
              , storage_url := svc.storageUrl (svc.upload_path ++ f.fileId ++ "/" ++ vf)
              , uploaded_at := now }
            , { objects := st.objects ++
                [ { key := svc.upload_path ++ f.fileId ++ "/" ++ vf
                  , body := f.content, contentType := mime
                  , metadata := [ ("file_id", f.fileId), ("original_filename", vf)
                                , ("uploaded_at", ext.isoFormat now) ]
                  , storageClass := none, lastModified := now } ] } ) := by
    unfold Routes.upload_single_file S3Service.upload_file
    simp only [hfn, hft, hfs, hput]
    rfl
  obtain ⟨fs, hfs1, hfs2, hfs3, hfs4, hfs5⟩ := get_file_status_after_append ext svc st
    { key := svc.upload_path ++ f.fileId ++ "/" ++ vf
    , body := f.content, contentType := mime
    , metadata := [ ("file_id", f.fileId), ("original_filename", vf)
                  , ("uploaded_at", ext.isoFormat now) ]
    , storageClass := none, lastModified := now }
    f.fileId (strStartsWith_append _ _) hfresh
  refine ⟨_, _, hroute, rfl, rfl, rfl, ⟨fs, hfs1, ?_, hfs3,
    (statusDict_has_no_size fs).1, (statusDict_has_no_size fs).2⟩,
    ⟨_, rfl, rfl, rfl, rfl⟩⟩
  rw [hfs2]
  rfl

/-- Claim C3 exactly as the spec states it: after a successful upload the
status record itself carries the file's size and type, equal to the upload
response's validated byte length and resolved MIME type, alongside the
sanitized filename (the record read through its serialized field map). -/
def roundTripRecordHasSizeAndType (ext : Ext) (settings : Settings)
    (svc : S3Service) (st : S3State) (f : UploadFileIn) (now : Int) : Prop :=
  ∀ resp st1, Routes.upload_single_file ext settings svc st f now = .ok (resp, st1) →
    ∃ fs, S3Service.get_file_status svc ext st1.backend f.fileId = .ok fs
      ∧ fs.toDict.lookup "filename" = some (.str resp.filename)
      ∧ fs.toDict.lookup "file_size" = some (.int resp.file_size)
      ∧ fs.toDict.lookup "file_type" = some (.str resp.file_type)

/-- C3 counterexample: for a concrete successful upload the status record
has no file_size entry at all (FileStatusResponse has no size or type
field), so the claimed size/type equalities cannot hold. -/
theorem roundtrip_size_type_counterexample :
    ¬ roundTripRecordHasSizeAndType ext0 settings0 svc0 st0 f0 0 := by
  intro h
  obtain ⟨fs, -, -, hsize, -⟩ := h _ _ rfl
  rw [(statusDict_has_no_size fs).1] at hsize
  exact Option.noConfusion hsize

/-- C3 amended witness: uploading the two bytes hi as a.txt and fetching
status by the returned identity yields filename a.txt in the status record,
size 2 and type text/plain in the upload response and stored object, and no
size/type entries in the status record. -/
theorem upload_then_status_roundtrip_witness :
    ∃ resp st1,
      Routes.upload_single_file ext0 settings0 svc0 st0 f0 0 = .ok (resp, st1)
      ∧ resp.filename = "a.txt"
      ∧ resp.file_size = ((2 : Nat) : Int)
      ∧ resp.file_type = "text/plain"
      ∧ (∃ fs, S3Service.get_file_status svc0 ext0 st1.backend f0.fileId = .ok fs
          ∧ fs.filename = "a.txt"
          ∧ fs.status = "uploaded"
          ∧ fs.toDict.lookup "file_size" = none
          ∧ fs.toDict.lookup "file_type" = none)
      ∧ (∃ obj, st1.objects = st0.objects ++ [obj]
          ∧ obj.body = f0.content
          ∧ obj.contentType = "text/plain"
          ∧ obj.metadata.lookup "original_filename" = some "a.txt") :=
  upload_then_status_roundtrip ext0 settings0 svc0 st0 f0 0 "a.txt" "text/plain"
    (by rfl) (by rfl) (by rfl) (by rfl)
    (by intro o ho; exact absurd ho (List.not_mem_nil o))

/-- C9: whenever the listed object's head metadata either has no
uploaded_at entry (or an empty one) or carries a value the timestamp parser
rejects, get_file_status still succeeds and reports the object's stored
last-modified time as the upload timestamp; missing metadata also never
fails the read (the filename falls back to unknown via getD). -/
theorem status_metadata_fallback
    (ext : Ext) (svc : S3Service) (b : Backend) (file_id : String)
    (obj head : StoredObject) (rest : List StoredObject)
    (hl : b.listV2 (svc.upload_path ++ file_id ++ "/") none = .ok (obj :: rest))
    (hh : b.headObject obj.key = .ok head)
    (hmeta : ∀ s, head.metadata.lookup "uploaded_at" = some s →
        s = "" ∨ ext.parseIso (replaceZ s) = none) :
    ∃ fs, S3Service.get_file_status svc ext b file_id = .ok fs
      ∧ fs.uploaded_at = some obj.lastModified
      ∧ fs.filename = (head.metadata.lookup "original_filename").getD "unknown"
      ∧ fs.status = "uploaded" := by
  unfold S3Service.get_file_status
  simp only [hl, hh]
  cases hlk : head.metadata.lookup "uploaded_at" with
  | none =>
      simp only [hlk]
      exact ⟨_, rfl, rfl, rfl, rfl⟩
  | some s =>
      simp only [hlk]
      rcases hmeta s hlk with hse | hpn
      · rw [if_neg (by simp [hse])]
        exact ⟨_, rfl, rfl, rfl, rfl⟩
      · by_cases hse : s = ""
        · rw [if_neg (by simp [hse])]
          exact ⟨_, rfl, rfl, rfl, rfl⟩
        · rw [if_pos hse]
          simp only [hpn]
          exact ⟨_, rfl, rfl, rfl, rfl⟩

/-- A bucket with two objects under distinct identities: one whose metadata
is entirely missing, one whose uploaded_at value no parser accepts. -/
def stMeta : S3State where
  objects :=
    [ { key := "uploads/fidM/doc.txt", body := [104], contentType := "text/plain"
      , metadata := [], storageClass := none, lastModified := 77 }
    , { key := "uploads/fidG/doc.txt", body := [104], contentType := "text/plain"
      , metadata := [ ("file_id", "fidG"), ("original_filename", "doc.txt")
                    , ("uploaded_at", "not-a-timestamp") ]
      , storageClass := none, lastModified := 88 } ]

/-- C9 witness: with metadata absent the status read reports last-modified
77 and filename unknown; with an unparsable uploaded_at it reports
last-modified 88 and the metadata filename. -/
theorem status_metadata_fallback_witness :
    (∃ fs, S3Service.get_file_status svc0 ext0 stMeta.backend "fidM" = .ok fs
      ∧ fs.uploaded_at = some 77
      ∧ fs.filename = "unknown"
      ∧ fs.status = "uploaded")
    ∧ (∃ fs, S3Service.get_file_status svc0 ext0 stMeta.backend "fidG" = .ok fs
      ∧ fs.uploaded_at = some 88
      ∧ fs.filename = "doc.txt"
      ∧ fs.status = "uploaded") :=
  ⟨status_metadata_fallback ext0 svc0 stMeta.backend "fidM"
      { key := "uploads/fidM/doc.txt", body := [104], contentType := "text/plain"
      , metadata := [], storageClass := none, lastModified := 77 }
      { key := "uploads/fidM/doc.txt", body := [104], contentType := "text/plain"
      , metadata := [], storageClass := none, lastModified := 77 }
      [] (by rfl) (by rfl) (fun s hs => Option.noConfusion hs),
   status_metadata_fallback ext0 svc0 stMeta.backend "fidG"
      { key := "uploads/fidG/doc.txt", body := [104], contentType := "text/plain"
      , metadata := [ ("file_id", "fidG"), ("original_filename", "doc.txt")
                    , ("uploaded_at", "not-a-timestamp") ]
      , storageClass := none, lastModified := 88 }
      { key := "uploads/fidG/doc.txt", body := [104], contentType := "text/plain"
      , metadata := [ ("file_id", "fidG"), ("original_filename", "doc.txt")
                    , ("uploaded_at", "not-a-timestamp") ]
      , storageClass := none, lastModified := 88 }
      [] (by rfl) (by rfl)
      (fun s hs => Or.inr (by rfl))⟩

end StorageApi
